import Mathlib

/- Shallow embedding of the email retry sender (src/lib/email.ts) and of the
Stripe webhook route handler. JavaScript numbers are modelled as rationals,
timestamps as natural numbers of milliseconds, and absent or null strings as
the empty string (JavaScript truthiness treats the empty string as falsy).
External collaborators (the SMTP transport, the Stripe API, the Xata database)
are modelled as explicit parameters describing their observable behaviour. -/

/-- Options passed to the mail transport; only the recipient is observable in
the retry logic (mailOptions.to). -/
structure MailOptions where
  «to» : String
deriving DecidableEq

/-- Outcome of one transport attempt: transporter.sendMail either resolves
with an info object carrying a messageId, or rejects with an error. -/
inductive TransportResult where
  | ok (messageId : String)
  | err (e : String)
deriving DecidableEq

/-- Whether a transport attempt rejected. -/
def TransportResult.isErr : TransportResult → Bool
  | .err _ => true
  | .ok _ => false

/-- The error carried by a rejected transport attempt. -/
def TransportResult.errOf : TransportResult → String
  | .err e => e
  | .ok _ => ""

/-- The lastFailed snapshot stored in EmailMetrics: email type label,
recipient, the last observed error (none models the initial null), and the
time of the failure. -/
structure LastFailed where
  emailType : String
  recipient : String
  error : Option String
  timestamp : Nat
deriving DecidableEq

/-- The EmailMetrics record of email.ts. -/
structure EmailMetrics where
  totalSent : Nat
  totalFailed : Nat
  lastFailed : Option LastFailed
  deliveryRate : ℚ
deriving DecidableEq

/-- The delivery rate as computed by updateDeliveryRate in email.ts:
totalSent / (totalSent + totalFailed) * 100 when at least one sequence has
completed, and 100 otherwise. -/
def deliveryRateOf (s f : Nat) : ℚ :=
  if 0 < s + f then ((s : ℚ) / ((s : ℚ) + (f : ℚ))) * 100 else 100

/-- updateDeliveryRate from email.ts: recompute deliveryRate from the two
counters. -/
def updateDeliveryRate (m : EmailMetrics) : EmailMetrics :=
  { m with deliveryRate := deliveryRateOf m.totalSent m.totalFailed }

/-- The module-level emailMetrics object in its initial (process start)
state. -/
def emailMetrics : EmailMetrics :=
  { totalSent := 0, totalFailed := 0, lastFailed := none, deliveryRate := 100 }

/-- The value returned by sendWithRetry on success. -/
structure SendSuccess where
  messageId : String
  attempts : Nat
deriving DecidableEq

/-- Full observable outcome of one sendWithRetry call: the returned value or
thrown error, the metrics after the call, and the list of backoff delays that
were waited between attempts. -/
structure SendOutput where
  result : Except (Option String) SendSuccess
  metrics : EmailMetrics
  delays : List ℚ

/-- The code path after the while loop of sendWithRetry exits without a
success: increment totalFailed, recompute the delivery rate, record the
lastFailed snapshot, and throw lastError. -/
def exhaustSend (mail : MailOptions) (emailType : String) (now : Nat)
    (lastError : Option String) (m : EmailMetrics) (delays : List ℚ) : SendOutput :=
  let m1 := updateDeliveryRate { m with totalFailed := m.totalFailed + 1 }
  { result := .error lastError,
    metrics := { m1 with lastFailed := some ⟨emailType, mail.«to», lastError, now⟩ },
    delays := delays }

/-- The while loop of sendWithRetry. The transport is a function from the
0-based attempt index to its outcome; rand gives the Math.random() draw used
for the jitter after the failure of the (1-based) attempt it is indexed by. -/
def sendWithRetryLoop (mail : MailOptions) (emailType : String) (maxRetries : Nat)
    (baseDelay : ℚ) (transport : Nat → TransportResult) (rand : Nat → ℚ) (now : Nat)
    (attempt : Nat) (lastError : Option String) (m : EmailMetrics) (delays : List ℚ) :
    SendOutput :=
  if h : attempt < maxRetries then
    match transport attempt with
    | .ok mid =>
        { result := .ok ⟨mid, attempt + 1⟩,
          metrics := updateDeliveryRate { m with totalSent := m.totalSent + 1 },
          delays := delays }
    | .err e =>
        if h2 : attempt + 1 < maxRetries then
          sendWithRetryLoop mail emailType maxRetries baseDelay transport rand now
            (attempt + 1) (some e) m
            (delays ++ [baseDelay * 2 ^ attempt + rand (attempt + 1) * 500])
        else
          exhaustSend mail emailType now (some e) m delays
  else
    exhaustSend mail emailType now lastError m delays
termination_by maxRetries - attempt
decreasing_by omega

/-- sendWithRetry from email.ts (the source defaults are maxRetries = 3 and
baseDelay = 1000). -/
def sendWithRetry (mail : MailOptions) (emailType : String) (maxRetries : Nat)
    (baseDelay : ℚ) (transport : Nat → TransportResult) (rand : Nat → ℚ) (now : Nat)
    (m : EmailMetrics) : SendOutput :=
  sendWithRetryLoop mail emailType maxRetries baseDelay transport rand now 0 none m []

/-- One call to sendWithRetry, with the behaviour of the external transport
and of the jitter source for that call. -/
structure SendCall where
  mail : MailOptions
  emailType : String
  maxRetries : Nat
  baseDelay : ℚ
  transport : Nat → TransportResult
  rand : Nat → ℚ
  now : Nat

/-- Run a sequence of sendWithRetry calls, threading the process-wide
metrics. -/
def runSends : List SendCall → EmailMetrics → EmailMetrics
  | [], m => m
  | c :: cs, m =>
      runSends cs
        (sendWithRetry c.mail c.emailType c.maxRetries c.baseDelay c.transport c.rand c.now m).metrics

/- ===== Webhook route model (the Stripe webhook POST handler) ===== -/

/-- JavaScript short-circuit or on strings: the empty string models
null/undefined/the empty string, all falsy. -/
def jsOr (a b : String) : String := if a = "" then b else a

/-- One observable call to an external collaborator made while processing a
webhook request: Stripe lookups, Xata database operations, and mail
dispatches. -/
inductive Effect where
  | retrieveCharge (id : String)
  | retrieveSubscription (id : String)
  | retrieveCustomer (id : String)
  | retrievePaymentIntent (id : String)
  | findDonor (email : String)
  | updateDonor (email : String)
  | createDonor (email : String)
  | createDonation (email : String)
  | sendMailDonation (toAddr : String)
  | sendMailPaymentFailed (toAddr : String)
deriving DecidableEq

/-- A donor row (xata donors table); totalDonations is optional as in the
DonorRecord interface. -/
structure DonorRecord where
  name : String
  email : String
  phone : String
  totalDonations : Option ℚ
  lastDonationDate : Nat
  donationFrequency : String
deriving DecidableEq

/-- A donation row (xata donations table). -/
structure DonationRecord where
  amount : ℚ
  currency : String
  donationType : String
  frequency : String
  donorName : String
  donorEmail : String
  donorPhone : String
  paymentMethod : String
  paymentStatus : String
  isRecurring : Bool
  stripePaymentIntentId : String
  stripeChargeId : String
  stripeSubscriptionId : String
  receiptUrl : String
  date : Nat
deriving DecidableEq

/-- Observable state threaded through a webhook request: the log of external
calls and the database tables. -/
structure St where
  effects : List Effect
  donors : List DonorRecord
  donations : List DonationRecord
deriving DecidableEq

/-- Append one external call to the log. -/
def logE (st : St) (e : Effect) : St := { st with effects := st.effects ++ [e] }

/-- A Stripe customer as returned by customers.retrieve (possibly a deleted
customer stub). -/
structure CustomerObj where
  deleted : Bool
  email : String
  name : String
  phone : String
deriving DecidableEq

/-- A Stripe subscription (retrieved or carried by an event), with the
metadata fields the route reads. -/
structure SubscriptionObj where
  id : String
  status : String
  customer : String
  m_donorName : String
  m_donorPhone : String
  m_donationType : String
  m_frequency : String
deriving DecidableEq

/-- A Stripe charge with the fields getPaymentMethodType and the payment
intent handler read. -/
structure ChargeObj where
  id : String
  receipt_url : String
  billing_email : String
  billing_phone : String
  has_card : Bool
  card_brand : String
  card_last4 : String
  pm_type : String
deriving DecidableEq

/-- A payment intent retrieved with latest_charge expanded. -/
structure PaymentIntentRetrieved where
  latest_charge : Option ChargeObj
deriving DecidableEq

/-- The payment intent object of a payment_intent.succeeded event. -/
structure PaymentIntentObj where
  id : String
  m_subscriptionId : String
  m_donorName : String
  m_donorEmail : String
  m_donorPhone : String
  m_donationType : String
  m_frequency : String
  invoice : String
  latest_charge : String
  amount : ℚ
  currency : String
  created : Nat
deriving DecidableEq

/-- The invoice object of an invoice event. -/
structure InvoiceObj where
  id : String
  subscription : String
  customer : String
  customer_email : String
  amount_paid : ℚ
  amount_due : ℚ
  currency : String
  hosted_invoice_url : String
  payment_intent : String
  next_payment_attempt : Option Nat
  billing_reason : String
  created : Nat
deriving DecidableEq

/-- The data object carried by a Stripe event; each handler casts it to the
shape it expects. -/
inductive EventObject where
  | pi (p : PaymentIntentObj)
  | inv (i : InvoiceObj)
  | sub (s : SubscriptionObj)
deriving DecidableEq

/-- A decoded Stripe event. -/
structure StripeEvent where
  type : String
  object : EventObject
deriving DecidableEq

/-- The cast 'event.data.object as Stripe.PaymentIntent'; a mismatched cast
yields an all-undefined object. -/
def EventObject.asPaymentIntent : EventObject → PaymentIntentObj
  | .pi p => p
  | _ => ⟨"", "", "", "", "", "", "", "", "", 0, "", 0⟩

/-- The cast 'event.data.object as Stripe.Invoice'. -/
def EventObject.asInvoice : EventObject → InvoiceObj
  | .inv i => i
  | _ => ⟨"", "", "", "", 0, 0, "", "", "", none, "", 0⟩

/-- The cast 'event.data.object as Stripe.Subscription'. -/
def EventObject.asSubscription : EventObject → SubscriptionObj
  | .sub s => s
  | _ => ⟨"", "", "", "", "", "", ""⟩

/-- Behaviour of the external collaborators during one request: signature
verification / event decoding, the Stripe read endpoints, and whether each
Xata database operation rejects. -/
structure Env where
  constructEvent : String → String → Except String StripeEvent
  retrieveSubscription : String → Except String SubscriptionObj
  retrieveCustomer : String → Except String CustomerObj
  retrievePaymentIntent : String → Except String PaymentIntentRetrieved
  retrieveCharge : String → Except String ChargeObj
  donorFindFails : Bool
  donorUpdateFails : Bool
  donorCreateFails : Bool
  donationCreateFails : Bool

/-- The JSON responses produced by the route: HTTP status, whether the body
acknowledged receipt, and the error field if any. -/
structure Response where
  status : Nat
  received : Bool
  error : Option String
deriving DecidableEq

/-- NextResponse.json with received true. -/
def okReceived : Response := ⟨200, true, none⟩

/-- getPaymentMethodType from the route. -/
def getPaymentMethodType : Option ChargeObj → String
  | none => "card"
  | some c =>
      if c.has_card then c.card_brand ++ " •••• " ++ c.card_last4
      else jsOr c.pm_type "card"

/-- The argument record assembled for saveDonationRecord. -/
structure SaveData where
  email : String
  name : String
  phone : String
  amount : ℚ
  currency : String
  donationType : String
  frequency : String
  paymentMethod : String
  isRecurring : Bool
  stripePaymentIntentId : String
  stripeChargeId : String
  stripeSubscriptionId : String
  receiptUrl : String
  created : Nat
deriving DecidableEq

/-- The donation row built by saveDonationRecord. -/
def mkDonation (data : SaveData) : DonationRecord :=
  { amount := data.amount, currency := data.currency,
    donationType := data.donationType, frequency := data.frequency,
    donorName := data.name, donorEmail := data.email, donorPhone := data.phone,
    paymentMethod := data.paymentMethod, paymentStatus := "succeeded",
    isRecurring := data.isRecurring,
    stripePaymentIntentId := data.stripePaymentIntentId,
    stripeChargeId := data.stripeChargeId,
    stripeSubscriptionId := data.stripeSubscriptionId,
    receiptUrl := data.receiptUrl, date := data.created }

/-- The donorUpdate applied to an existing donor: new lifetime total is the
previous total (or 0 when the field is absent) plus the amount. -/
def updDonor (d : DonorRecord) (data : SaveData) : DonorRecord :=
  { d with
    name := data.name,
    phone := data.phone,
    totalDonations := some (d.totalDonations.getD 0 + data.amount),
    lastDonationDate := data.created,
    donationFrequency := data.frequency }

/-- The donor row created when no donor with the email exists. -/
def newDonor (data : SaveData) : DonorRecord :=
  { name := data.name, email := data.email, phone := data.phone,
    totalDonations := some (0 + data.amount),
    lastDonationDate := data.created, donationFrequency := data.frequency }

/-- Replace the first donor row with the given email. -/
def updateDonorList : List DonorRecord → String → DonorRecord → List DonorRecord
  | [], _, _ => []
  | d :: rest, em, nd =>
      if d.email = em then nd :: rest else d :: updateDonorList rest em nd

/-- The tail of saveDonationRecord: create the donation row (unconditional
create, one row per event). -/
def afterDonorStep (env : Env) (data : SaveData) (donor : DonorRecord) (st : St) :
    St × Except String (DonorRecord × DonationRecord) :=
  let st1 := logE st (.createDonation data.email)
  if env.donationCreateFails then (st1, .error "Failed to create donation record")
  else
    ({ st1 with donations := st1.donations ++ [mkDonation data] },
     .ok (donor, mkDonation data))

/-- saveDonationRecord from the route: validate email and amount, find the
donor by email, update it if present else create it, then create the donation
row. Any database rejection is rethrown to the caller. -/
def saveDonationRecord (env : Env) (data : SaveData) (st : St) :
    St × Except String (DonorRecord × DonationRecord) :=
  if data.email = "" ∨ data.amount = 0 then
    (st, .error "Missing required donation data: email or amount")
  else
    let st1 := logE st (.findDonor data.email)
    if env.donorFindFails then (st1, .error "Database error finding donor")
    else
      match st1.donors.find? (fun d => d.email = data.email) with
      | some d0 =>
          let st2 := logE st1 (.updateDonor d0.email)
          if env.donorUpdateFails then (st2, .error "Database error updating donor")
          else
            afterDonorStep env data (updDonor d0 data)
              { st2 with donors := updateDonorList st2.donors data.email (updDonor d0 data) }
      | none =>
          let st2 := logE st1 (.createDonor data.email)
          if env.donorCreateFails then (st2, .error "Database error creating donor")
          else
            afterDonorStep env data (newDonor data)
              { st2 with donors := st2.donors ++ [newDonor data] }

/-- The payment-method lookup of handleInvoicePaymentSucceeded: retrieve the
payment intent with its charge expanded; a failure here is caught and the
default of card is kept. -/
def invoicePm (env : Env) (invoice : InvoiceObj) (st : St) : St × String :=
  if invoice.payment_intent ≠ "" then
    let st1 := logE st (.retrievePaymentIntent invoice.payment_intent)
    match env.retrievePaymentIntent invoice.payment_intent with
    | .ok p => (st1, getPaymentMethodType p.latest_charge)
    | .error _ => (st1, "card")
  else (st, "card")

/-- The donationData record assembled by handleInvoicePaymentSucceeded. -/
def invoiceData (invoice : InvoiceObj) (sub : SubscriptionObj)
    (email nm phone pm : String) : SaveData :=
  { email := email, name := nm, phone := phone,
    amount := invoice.amount_paid / 100,
    currency := invoice.currency.toUpper,
    donationType := jsOr sub.m_donationType "Recurring Donation",
    frequency := jsOr sub.m_frequency "monthly",
    paymentMethod := pm, isRecurring := true,
    stripePaymentIntentId := invoice.payment_intent,
    stripeChargeId := "",
    stripeSubscriptionId := sub.id,
    receiptUrl := jsOr invoice.hosted_invoice_url "",
    created := invoice.created * 1000 }

/-- The tail of handleInvoicePaymentSucceeded: build the donation data, try to
persist it and send the receipt mail; failures inside this try block are
caught and the event is still acknowledged. -/
def invoiceFinish (env : Env) (invoice : InvoiceObj) (sub : SubscriptionObj)
    (email nm phone pm : String) (st : St) : St × Except String Response :=
  match saveDonationRecord env (invoiceData invoice sub email nm phone pm) st with
  | (st1, .error _) => (st1, .ok okReceived)
  | (st1, .ok _) => (logE st1 (.sendMailDonation email), .ok okReceived)

/-- handleInvoicePaymentSucceeded from the route. The subscription and
customer lookups run outside any try block, so their failure propagates to
the caller. -/
def handleInvoicePaymentSucceeded (env : Env) (ev : StripeEvent) (st : St) :
    St × Except String Response :=
  let invoice := ev.object.asInvoice
  if invoice.subscription = "" then (st, .ok okReceived)
  else
    let st1 := logE (logE st (.retrieveSubscription invoice.subscription))
      (.retrieveCustomer invoice.customer)
    match env.retrieveSubscription invoice.subscription,
          env.retrieveCustomer invoice.customer with
    | .error e, _ => (st1, .error e)
    | .ok _, .error e => (st1, .error e)
    | .ok sub, .ok cust =>
      if cust.deleted = false then
        let email := jsOr invoice.customer_email (jsOr cust.email "")
        let nm := jsOr cust.name (jsOr sub.m_donorName "Recurring Donor")
        let phone := jsOr cust.phone sub.m_donorPhone
        let step := invoicePm env invoice st1
        invoiceFinish env invoice sub email nm phone step.2 step.1
      else if invoice.customer_email ≠ "" then
        let step := invoicePm env invoice st1
        invoiceFinish env invoice sub invoice.customer_email "Recurring Donor" ""
          step.2 step.1
      else (st1, .ok ⟨200, true, some "Missing email"⟩)

/-- handlePaymentIntentSucceeded from the route. Subscription payments (a
subscriptionId in the metadata or an invoice reference) are skipped. The
charge lookup runs outside any try block, so its failure propagates. -/
def handlePaymentIntentSucceeded (env : Env) (ev : StripeEvent) (st : St) :
    St × Except String Response :=
  let p := ev.object.asPaymentIntent
  if p.m_subscriptionId ≠ "" ∨ p.invoice ≠ "" then (st, .ok okReceived)
  else
    let step : St × Except String (Option ChargeObj) :=
      if p.latest_charge ≠ "" then
        match env.retrieveCharge p.latest_charge with
        | .ok c => (logE st (.retrieveCharge p.latest_charge), .ok (some c))
        | .error e => (logE st (.retrieveCharge p.latest_charge), .error e)
      else (st, .ok none)
    match step with
    | (st1, .error e) => (st1, .error e)
    | (st1, .ok charge) =>
      let chargeEmail := match charge with | some c => c.billing_email | none => ""
      let chargePhone := match charge with | some c => c.billing_phone | none => ""
      let email := jsOr p.m_donorEmail (jsOr chargeEmail "")
      if email = "" then (st1, .ok ⟨200, true, some "Missing email"⟩)
      else
        let data : SaveData :=
          { email := email,
            name := jsOr p.m_donorName "Anonymous",
            phone := jsOr p.m_donorPhone (jsOr chargePhone ""),
            amount := p.amount / 100,
            currency := p.currency.toUpper,
            donationType := jsOr p.m_donationType "General Donation",
            frequency := jsOr p.m_frequency "one-time",
            paymentMethod := getPaymentMethodType charge,
            isRecurring := false,
            stripePaymentIntentId := p.id,
            stripeChargeId := (match charge with | some c => c.id | none => ""),
            stripeSubscriptionId := "",
            receiptUrl := jsOr (match charge with | some c => c.receipt_url | none => "") "",
            created := p.created * 1000 }
        match saveDonationRecord env data st1 with
        | (st2, .error _) => (st2, .ok okReceived)
        | (st2, .ok _) => (logE st2 (.sendMailDonation email), .ok okReceived)

/-- handleSubscriptionCreated: log-only handler; the customer lookup is inside
a try block so its failure is absorbed. -/
def handleSubscriptionCreated (env : Env) (ev : StripeEvent) (st : St) :
    St × Except String Response :=
  let s := ev.object.asSubscription
  (logE st (.retrieveCustomer s.customer), .ok okReceived)

/-- handleSubscriptionUpdated: log-only handler, no external calls. -/
def handleSubscriptionUpdated (env : Env) (ev : StripeEvent) (st : St) :
    St × Except String Response :=
  (st, .ok okReceived)

/-- handleSubscriptionDeleted: log-only handler; the customer lookup is inside
a try block. -/
def handleSubscriptionDeleted (env : Env) (ev : StripeEvent) (st : St) :
    St × Except String Response :=
  let s := ev.object.asSubscription
  (logE st (.retrieveCustomer s.customer), .ok okReceived)

/-- handlePaymentFailed: look up the customer (failure absorbed); when an
email and a subscription id are available, look up the subscription and send
the payment-failed mail, absorbing failures. -/
def handlePaymentFailed (env : Env) (ev : StripeEvent) (st : St) :
    St × Except String Response :=
  let invoice := ev.object.asInvoice
  let st1 := logE st (.retrieveCustomer invoice.customer)
  let info : String × String :=
    match env.retrieveCustomer invoice.customer with
    | .ok c => if c.deleted = false then (c.email, jsOr c.name "Donor") else ("", "Donor")
    | .error _ => ("", "Donor")
  if info.1 ≠ "" ∧ invoice.subscription ≠ "" then
    let st2 := logE st1 (.retrieveSubscription invoice.subscription)
    match env.retrieveSubscription invoice.subscription with
    | .error _ => (st2, .ok okReceived)
    | .ok _ => (logE st2 (.sendMailPaymentFailed info.1), .ok okReceived)
  else (st1, .ok okReceived)

/-- handlePaymentActionRequired: log-only handler. -/
def handlePaymentActionRequired (env : Env) (ev : StripeEvent) (st : St) :
    St × Except String Response :=
  (st, .ok okReceived)

/-- handleSubscriptionPastDue: log-only handler; the customer lookup is inside
a try block. -/
def handleSubscriptionPastDue (env : Env) (ev : StripeEvent) (st : St) :
    St × Except String Response :=
  let s := ev.object.asSubscription
  (logE st (.retrieveCustomer s.customer), .ok okReceived)

/-- handleSubscriptionUnpaid: log-only handler; the customer lookup is inside
a try block. -/
def handleSubscriptionUnpaid (env : Env) (ev : StripeEvent) (st : St) :
    St × Except String Response :=
  let s := ev.object.asSubscription
  (logE st (.retrieveCustomer s.customer), .ok okReceived)

/-- The event types the switch statement of the route names. -/
def handledTypes : List String :=
  ["payment_intent.succeeded", "invoice.payment_succeeded",
   "customer.subscription.created", "customer.subscription.updated",
   "customer.subscription.deleted", "invoice.payment_failed",
   "invoice.payment_action_required", "customer.subscription.past_due",
   "customer.subscription.unpaid"]

/-- The switch statement of the route: dispatch on the event type string;
unrecognized types are logged and acknowledged. -/
def dispatchEvent (env : Env) (ev : StripeEvent) (st : St) :
    St × Except String Response :=
  if ev.type = "payment_intent.succeeded" then handlePaymentIntentSucceeded env ev st
  else if ev.type = "invoice.payment_succeeded" then handleInvoicePaymentSucceeded env ev st
  else if ev.type = "customer.subscription.created" then handleSubscriptionCreated env ev st
  else if ev.type = "customer.subscription.updated" then handleSubscriptionUpdated env ev st
  else if ev.type = "customer.subscription.deleted" then handleSubscriptionDeleted env ev st
  else if ev.type = "invoice.payment_failed" then handlePaymentFailed env ev st
  else if ev.type = "invoice.payment_action_required" then handlePaymentActionRequired env ev st
  else if ev.type = "customer.subscription.past_due" then handleSubscriptionPastDue env ev st
  else if ev.type = "customer.subscription.unpaid" then handleSubscriptionUnpaid env ev st
  else (st, .ok okReceived)

/-- An inbound webhook request: the raw body and the stripe-signature
header. -/
structure WebhookRequest where
  body : String
  sigHeader : Option String

/-- The POST route: reject a missing signature, verify and decode the event,
dispatch it, and convert an escaped exception into a 500 response. -/
def POST (env : Env) (req : WebhookRequest) (st : St) : St × Response :=
  match req.sigHeader with
  | none => (st, ⟨400, false, some "Missing Stripe signature"⟩)
  | some sig =>
    match env.constructEvent req.body sig with
    | .error _ => (st, ⟨400, false, some "Invalid signature"⟩)
    | .ok ev =>
      match dispatchEvent env ev st with
      | (st2, .ok resp) => (st2, resp)
      | (st2, .error _) => (st2, ⟨500, false, some "Failed to process webhook"⟩)

/- ===== Lemmas about the retry sender ===== -/

/-- Metrics facts about one completed delivery sequence: the two counters grow
by exactly one in total, and the rate is the recomputed one. -/
abbrev StepOk (m m2 : EmailMetrics) : Prop :=
  m2.totalSent + m2.totalFailed = m.totalSent + m.totalFailed + 1
  ∧ m2.deliveryRate = deliveryRateOf m2.totalSent m2.totalFailed

theorem exhaustSend_stepOk (mail : MailOptions) (emailType : String) (now : Nat)
    (lastError : Option String) (m : EmailMetrics) (delays : List ℚ) :
    StepOk m (exhaustSend mail emailType now lastError m delays).metrics := by
  constructor
  · show m.totalSent + (m.totalFailed + 1) = m.totalSent + m.totalFailed + 1
    omega
  · rfl

theorem updateAfterSuccess_stepOk (m : EmailMetrics) :
    StepOk m (updateDeliveryRate { m with totalSent := m.totalSent + 1 }) := by
  constructor
  · show m.totalSent + 1 + m.totalFailed = m.totalSent + m.totalFailed + 1
    omega
  · rfl

section RetryLemmas

variable (mail : MailOptions) (emailType : String) (maxRetries : Nat) (baseDelay : ℚ)
variable (transport : Nat → TransportResult) (rand : Nat → ℚ) (now : Nat)

theorem sendWithRetryLoop_stop (attempt : Nat) (lastError : Option String)
    (m : EmailMetrics) (delays : List ℚ) (h : ¬ attempt < maxRetries) :
    sendWithRetryLoop mail emailType maxRetries baseDelay transport rand now
      attempt lastError m delays = exhaustSend mail emailType now lastError m delays := by
  unfold sendWithRetryLoop
  rw [dif_neg h]

theorem sendWithRetryLoop_success (attempt : Nat) (lastError : Option String)
    (m : EmailMetrics) (delays : List ℚ) (mid : String)
    (h : attempt < maxRetries) (htr : transport attempt = .ok mid) :
    sendWithRetryLoop mail emailType maxRetries baseDelay transport rand now
      attempt lastError m delays
      = { result := .ok ⟨mid, attempt + 1⟩,
          metrics := updateDeliveryRate { m with totalSent := m.totalSent + 1 },
          delays := delays } := by
  unfold sendWithRetryLoop
  rw [dif_pos h, htr]

theorem sendWithRetryLoop_cont (attempt : Nat) (lastError : Option String)
    (m : EmailMetrics) (delays : List ℚ) (e : String)
    (h2 : attempt + 1 < maxRetries) (htr : transport attempt = .err e) :
    sendWithRetryLoop mail emailType maxRetries baseDelay transport rand now
      attempt lastError m delays
      = sendWithRetryLoop mail emailType maxRetries baseDelay transport rand now
          (attempt + 1) (some e) m
          (delays ++ [baseDelay * 2 ^ attempt + rand (attempt + 1) * 500]) := by
  have h : attempt < maxRetries := by omega
  conv_lhs => rw [sendWithRetryLoop]
  rw [dif_pos h, htr]
  simp only [dif_pos h2]

theorem sendWithRetryLoop_lastFail (attempt : Nat) (lastError : Option String)
    (m : EmailMetrics) (delays : List ℚ) (e : String)
    (h : attempt < maxRetries) (h2 : ¬ attempt + 1 < maxRetries)
    (htr : transport attempt = .err e) :
    sendWithRetryLoop mail emailType maxRetries baseDelay transport rand now
      attempt lastError m delays
      = exhaustSend mail emailType now (some e) m delays := by
  unfold sendWithRetryLoop
  rw [dif_pos h, htr]
  simp only [dif_neg h2]

theorem sendWithRetryLoop_stepOk :
    ∀ (n attempt : Nat) (lastError : Option String) (m : EmailMetrics) (delays : List ℚ),
      maxRetries - attempt ≤ n →
      StepOk m (sendWithRetryLoop mail emailType maxRetries baseDelay transport rand now
        attempt lastError m delays).metrics := by
  intro n
  induction n with
  | zero =>
    intro attempt lastError m delays hn
    have hge : ¬ attempt < maxRetries := by omega
    rw [sendWithRetryLoop_stop mail emailType maxRetries baseDelay transport rand now
      attempt lastError m delays hge]
    exact exhaustSend_stepOk mail emailType now lastError m delays
  | succ n ih =>
    intro attempt lastError m delays hn
    by_cases h : attempt < maxRetries
    · cases htr : transport attempt with
      | ok mid =>
        rw [sendWithRetryLoop_success mail emailType maxRetries baseDelay transport rand now
          attempt lastError m delays mid h htr]
        exact updateAfterSuccess_stepOk m
      | err e =>
        by_cases h2 : attempt + 1 < maxRetries
        · rw [sendWithRetryLoop_cont mail emailType maxRetries baseDelay transport rand now
            attempt lastError m delays e h2 htr]
          exact ih (attempt + 1) (some e) m _ (by omega)
        · rw [sendWithRetryLoop_lastFail mail emailType maxRetries baseDelay transport rand now
            attempt lastError m delays e h h2 htr]
          exact exhaustSend_stepOk mail emailType now (some e) m delays
    · rw [sendWithRetryLoop_stop mail emailType maxRetries baseDelay transport rand now
        attempt lastError m delays h]
      exact exhaustSend_stepOk mail emailType now lastError m delays

theorem sendWithRetry_stepOk (m : EmailMetrics) :
    StepOk m (sendWithRetry mail emailType maxRetries baseDelay transport rand now m).metrics :=
  sendWithRetryLoop_stepOk mail emailType maxRetries baseDelay transport rand now
    maxRetries 0 none m [] (by omega)

theorem sendWithRetryLoop_run :
    ∀ (n attempt j : Nat) (lastError : Option String) (m : EmailMetrics) (delays : List ℚ),
      j - attempt ≤ n → attempt ≤ j → j < maxRetries →
      (∀ i, attempt ≤ i → i < j → (transport i).isErr = true) →
      sendWithRetryLoop mail emailType maxRetries baseDelay transport rand now
        attempt lastError m delays
        = sendWithRetryLoop mail emailType maxRetries baseDelay transport rand now
            j (if attempt = j then lastError else some (transport (j - 1)).errOf) m
            (delays ++ (List.range' attempt (j - attempt)).map
              (fun i => baseDelay * 2 ^ i + rand (i + 1) * 500)) := by
  intro n
  induction n with
  | zero =>
    intro attempt j lastError m delays hn hle hlt hfail
    have hj : attempt = j := by omega
    subst hj
    simp
  | succ n ih =>
    intro attempt j lastError m delays hn hle hlt hfail
    by_cases hj : attempt = j
    · subst hj
      simp
    · have hlt2 : attempt < j := by omega
      have herr : (transport attempt).isErr = true := hfail attempt (le_refl _) hlt2
      cases htr : transport attempt with
      | ok mid => rw [htr] at herr; simp [TransportResult.isErr] at herr
      | err e =>
        have h2 : attempt + 1 < maxRetries := by omega
        rw [sendWithRetryLoop_cont mail emailType maxRetries baseDelay transport rand now
          attempt lastError m delays e h2 htr]
        rw [ih (attempt + 1) j (some e) m _ (by omega) (by omega) hlt
          (fun i hi1 hi2 => hfail i (by omega) hi2)]
        have hrange : List.range' attempt (j - attempt)
            = attempt :: List.range' (attempt + 1) (j - attempt - 1) := by
          have h3 : j - attempt = (j - attempt - 1) + 1 := by omega
          conv_lhs => rw [h3]
          rw [List.range'_succ]
        rw [hrange]
        have hsub : j - (attempt + 1) = j - attempt - 1 := by omega
        rw [hsub]
        by_cases hj1 : attempt + 1 = j
        · rw [if_pos hj1, if_neg hj]
          have hjm : j - 1 = attempt := by omega
          rw [hjm, htr]
          simp [TransportResult.errOf, List.append_assoc]
        · rw [if_neg hj1, if_neg hj]
          simp [List.append_assoc]

theorem sendWithRetryLoop_delays_mono :
    ∀ (n attempt : Nat) (lastError : Option String) (m : EmailMetrics) (delays : List ℚ),
      maxRetries - attempt ≤ n →
      ∃ t, (sendWithRetryLoop mail emailType maxRetries baseDelay transport rand now
        attempt lastError m delays).delays = delays ++ t := by
  intro n
  induction n with
  | zero =>
    intro attempt lastError m delays hn
    have hge : ¬ attempt < maxRetries := by omega
    rw [sendWithRetryLoop_stop mail emailType maxRetries baseDelay transport rand now
      attempt lastError m delays hge]
    exact ⟨[], by simp [exhaustSend]⟩
  | succ n ih =>
    intro attempt lastError m delays hn
    by_cases h : attempt < maxRetries
    · cases htr : transport attempt with
      | ok mid =>
        rw [sendWithRetryLoop_success mail emailType maxRetries baseDelay transport rand now
          attempt lastError m delays mid h htr]
        exact ⟨[], by simp⟩
      | err e =>
        by_cases h2 : attempt + 1 < maxRetries
        · rw [sendWithRetryLoop_cont mail emailType maxRetries baseDelay transport rand now
            attempt lastError m delays e h2 htr]
          obtain ⟨t, ht⟩ := ih (attempt + 1) (some e) m
            (delays ++ [baseDelay * 2 ^ attempt + rand (attempt + 1) * 500]) (by omega)
          exact ⟨[baseDelay * 2 ^ attempt + rand (attempt + 1) * 500] ++ t,
            by rw [ht, List.append_assoc]⟩
        · rw [sendWithRetryLoop_lastFail mail emailType maxRetries baseDelay transport rand now
            attempt lastError m delays e h h2 htr]
          exact ⟨[], by simp [exhaustSend]⟩
    · rw [sendWithRetryLoop_stop mail emailType maxRetries baseDelay transport rand now
        attempt lastError m delays h]
      exact ⟨[], by simp [exhaustSend]⟩

end RetryLemmas

/- ===== Claim theorems for the retry sender ===== -/

theorem runSends_invariant (calls : List SendCall) :
    ∀ m : EmailMetrics, m.deliveryRate = deliveryRateOf m.totalSent m.totalFailed →
      (runSends calls m).totalSent + (runSends calls m).totalFailed
          = m.totalSent + m.totalFailed + calls.length
      ∧ (runSends calls m).deliveryRate
          = deliveryRateOf (runSends calls m).totalSent (runSends calls m).totalFailed := by
  induction calls with
  | nil =>
    intro m hm
    exact ⟨by simp [runSends], by simpa [runSends] using hm⟩
  | cons c cs ih =>
    intro m hm
    obtain ⟨h1, h2⟩ := sendWithRetry_stepOk c.mail c.emailType c.maxRetries c.baseDelay
      c.transport c.rand c.now m
    obtain ⟨h3, h4⟩ := ih ((sendWithRetry c.mail c.emailType c.maxRetries c.baseDelay
      c.transport c.rand c.now m).metrics) h2
    simp only [runSends, List.length_cons]
    exact ⟨by omega, h4⟩

/-- C1: after any sequence of completed delivery sequences starting from the
zeroed initial metrics, totalSent plus totalFailed equals the number of
completed sequences, and deliveryRate equals
totalSent / (totalSent + totalFailed) * 100, with deliveryRate 100 when no
sequence has completed (including the initial state, whose rate is 100). -/
theorem metrics_invariant (calls : List SendCall) :
    (runSends calls emailMetrics).totalSent + (runSends calls emailMetrics).totalFailed
        = calls.length
    ∧ (runSends calls emailMetrics).deliveryRate
        = (if 0 < calls.length
           then ((runSends calls emailMetrics).totalSent : ℚ)
              / (((runSends calls emailMetrics).totalSent : ℚ)
                 + ((runSends calls emailMetrics).totalFailed : ℚ)) * 100
           else 100)
    ∧ emailMetrics.deliveryRate = 100 := by
  obtain ⟨h1, h2⟩ := runSends_invariant calls emailMetrics (by decide)
  have h1a : (runSends calls emailMetrics).totalSent
      + (runSends calls emailMetrics).totalFailed = calls.length := by
    simpa [emailMetrics] using h1
  refine ⟨h1a, ?_, by decide⟩
  rw [h2, deliveryRateOf, h1a]

/-- C2: a sendWithRetry call with maxRetries at least 1 in which every
transport attempt rejects increments totalFailed by exactly one, leaves
totalSent unchanged, records a lastFailed snapshot with the email type label,
the recipient, the last observed transport error and the current time,
recomputes the delivery rate, and propagates the failure to the caller. -/
theorem sendWithRetry_all_fail_spec (mail : MailOptions) (emailType : String)
    (maxRetries : Nat) (baseDelay : ℚ) (transport : Nat → TransportResult)
    (rand : Nat → ℚ) (now : Nat) (m : EmailMetrics)
    (hm : 1 ≤ maxRetries)
    (hfail : ∀ i, i < maxRetries → (transport i).isErr = true) :
    (sendWithRetry mail emailType maxRetries baseDelay transport rand now m).result
        = Except.error (some (transport (maxRetries - 1)).errOf)
    ∧ (sendWithRetry mail emailType maxRetries baseDelay transport rand now m).metrics
        = { totalSent := m.totalSent,
            totalFailed := m.totalFailed + 1,
            lastFailed := some ⟨emailType, mail.«to»,
              some (transport (maxRetries - 1)).errOf, now⟩,
            deliveryRate := deliveryRateOf m.totalSent (m.totalFailed + 1) } := by
  have hrun := sendWithRetryLoop_run mail emailType maxRetries baseDelay transport rand now
    maxRetries 0 (maxRetries - 1) none m [] (by omega) (by omega) (by omega)
    (fun i h1 h2 => hfail i (by omega))
  cases htr : transport (maxRetries - 1) with
  | ok mid =>
    have hc := hfail (maxRetries - 1) (by omega)
    rw [htr] at hc
    simp [TransportResult.isErr] at hc
  | err e =>
    unfold sendWithRetry
    rw [hrun]
    rw [sendWithRetryLoop_lastFail mail emailType maxRetries baseDelay transport rand now
      (maxRetries - 1) _ m _ e (by omega) (by omega) htr]
    exact ⟨rfl, rfl⟩

/-- Transport behaviour that rejects every attempt, for the C2 witness. -/
def transportAllFail : Nat → TransportResult := fun _ => .err "boom"

/-- Witness for C2: maxRetries 3, all three attempts fail. -/
theorem sendWithRetry_all_fail_spec_witness :
    (1 : Nat) ≤ 3
    ∧ (sendWithRetry ⟨"donor@example.org"⟩ "donation-receipt" 3 1000 transportAllFail
        (fun _ => 0) 7 emailMetrics).result = Except.error (some "boom")
    ∧ (sendWithRetry ⟨"donor@example.org"⟩ "donation-receipt" 3 1000 transportAllFail
        (fun _ => 0) 7 emailMetrics).metrics.totalFailed = 1
    ∧ (sendWithRetry ⟨"donor@example.org"⟩ "donation-receipt" 3 1000 transportAllFail
        (fun _ => 0) 7 emailMetrics).metrics.lastFailed
      = some ⟨"donation-receipt", "donor@example.org", some "boom", 7⟩ := by
  have h := sendWithRetry_all_fail_spec ⟨"donor@example.org"⟩ "donation-receipt" 3 1000
    transportAllFail (fun _ => 0) 7 emailMetrics (by decide) (fun i hi => rfl)
  refine ⟨by decide, h.1, ?_, ?_⟩
  · rw [h.2]
    rfl
  · rw [h.2]
    rfl

/-- C3: a sendWithRetry call in which the first k - 1 transport attempts
reject and the k-th resolves returns success with attempts = k, increments
only totalSent (totalFailed and lastFailed unchanged), and recomputes the
delivery rate. -/
theorem sendWithRetry_success_at_k (mail : MailOptions) (emailType : String)
    (maxRetries : Nat) (baseDelay : ℚ) (transport : Nat → TransportResult)
    (rand : Nat → ℚ) (now : Nat) (m : EmailMetrics) (k : Nat) (mid : String)
    (hk1 : 1 ≤ k) (hk2 : k ≤ maxRetries)
    (hfail : ∀ i, i < k - 1 → (transport i).isErr = true)
    (hok : transport (k - 1) = .ok mid) :
    (sendWithRetry mail emailType maxRetries baseDelay transport rand now m).result
        = Except.ok ⟨mid, k⟩
    ∧ (sendWithRetry mail emailType maxRetries baseDelay transport rand now m).metrics
        = { totalSent := m.totalSent + 1,
            totalFailed := m.totalFailed,
            lastFailed := m.lastFailed,
            deliveryRate := deliveryRateOf (m.totalSent + 1) m.totalFailed } := by
  have hrun := sendWithRetryLoop_run mail emailType maxRetries baseDelay transport rand now
    maxRetries 0 (k - 1) none m [] (by omega) (by omega) (by omega)
    (fun i h1 h2 => hfail i h2)
  unfold sendWithRetry
  rw [hrun]
  rw [sendWithRetryLoop_success mail emailType maxRetries baseDelay transport rand now
    (k - 1) _ m _ mid (by omega) hok]
  have hk : k - 1 + 1 = k := by omega
  rw [hk]
  exact ⟨rfl, rfl⟩

/-- Transport behaviour that rejects twice then resolves, for the C3
witness. -/
def transportFailTwice : Nat → TransportResult :=
  fun i => if i < 2 then .err "x" else .ok "mid7"

/-- Witness for C3: maxRetries 3, two failures then a success, attempts 3. -/
theorem sendWithRetry_success_at_k_witness :
    (1 : Nat) ≤ 3
    ∧ (sendWithRetry ⟨"donor@example.org"⟩ "payment-failed" 3 1000 transportFailTwice
        (fun _ => 0) 7 emailMetrics).result = Except.ok ⟨"mid7", 3⟩
    ∧ (sendWithRetry ⟨"donor@example.org"⟩ "payment-failed" 3 1000 transportFailTwice
        (fun _ => 0) 7 emailMetrics).metrics.totalSent = 1
    ∧ (sendWithRetry ⟨"donor@example.org"⟩ "payment-failed" 3 1000 transportFailTwice
        (fun _ => 0) 7 emailMetrics).metrics.lastFailed = none := by
  have h := sendWithRetry_success_at_k ⟨"donor@example.org"⟩ "payment-failed" 3 1000
    transportFailTwice (fun _ => 0) 7 emailMetrics 3 "mid7" (by decide) (by decide)
    (by decide) (by decide)
  refine ⟨by decide, h.1, ?_, ?_⟩
  · rw [h.2]
    rfl
  · rw [h.2]
    rfl

/-- C8: in any sendWithRetry call whose first a attempts reject (with
1 <= a < maxRetries), the wait after failed attempt a is exactly
baseDelay * 2 ^ (a - 1) plus the jitter rand a * 500, and under the
Math.random contract 0 <= rand a < 1 the jitter is non-negative and below
500. -/
theorem sendWithRetry_backoff (mail : MailOptions) (emailType : String)
    (maxRetries : Nat) (baseDelay : ℚ) (transport : Nat → TransportResult)
    (rand : Nat → ℚ) (now : Nat) (m : EmailMetrics) (a : Nat)
    (ha1 : 1 ≤ a) (ha2 : a < maxRetries)
    (hfail : ∀ i, i < a → (transport i).isErr = true)
    (hr0 : 0 ≤ rand a) (hr1 : rand a < 1) :
    ((sendWithRetry mail emailType maxRetries baseDelay transport rand now m).delays)[a - 1]?
        = some (baseDelay * 2 ^ (a - 1) + rand a * 500)
    ∧ 0 ≤ rand a * 500 ∧ rand a * 500 < 500 := by
  have hrun := sendWithRetryLoop_run mail emailType maxRetries baseDelay transport rand now
    a 0 a none m [] (by omega) (by omega) ha2 (fun i h1 h2 => hfail i h2)
  refine ⟨?_, mul_nonneg hr0 (by norm_num), ?_⟩
  · obtain ⟨t, ht⟩ := sendWithRetryLoop_delays_mono mail emailType maxRetries baseDelay
      transport rand now maxRetries a
      (if 0 = a then none else some (transport (a - 1)).errOf) m
      ([] ++ (List.range' 0 (a - 0)).map (fun i => baseDelay * 2 ^ i + rand (i + 1) * 500))
      (by omega)
    unfold sendWithRetry
    rw [hrun, ht]
    simp only [List.nil_append, Nat.sub_zero]
    rw [← List.range_eq_range']
    have hlen : a - 1 < ((List.range a).map
        (fun i => baseDelay * 2 ^ i + rand (i + 1) * 500)).length := by
      simp
      omega
    rw [List.getElem?_append, if_pos hlen]
    rw [List.getElem?_map]
    rw [List.getElem?_range (show a - 1 < a by omega)]
    have hsucc : a - 1 + 1 = a := by omega
    simp [hsucc]
  · have h500 := mul_lt_mul_of_pos_right hr1 (show (0 : ℚ) < 500 by norm_num)
    simpa using h500

/-- C9: a sendWithRetry call with maxRetries 0 never invokes the transport
(the outcome is the same for any two transports), and immediately reports an
exhausted failure: totalFailed is incremented, a lastFailed snapshot is
recorded (with the initial null error), and the failure is thrown to the
caller. -/
theorem sendWithRetry_zero_retries (mail : MailOptions) (emailType : String)
    (baseDelay : ℚ) (t1 t2 : Nat → TransportResult) (rand : Nat → ℚ) (now : Nat)
    (m : EmailMetrics) :
    sendWithRetry mail emailType 0 baseDelay t1 rand now m
        = sendWithRetry mail emailType 0 baseDelay t2 rand now m
    ∧ (sendWithRetry mail emailType 0 baseDelay t1 rand now m).result = Except.error none
    ∧ (sendWithRetry mail emailType 0 baseDelay t1 rand now m).metrics
        = { totalSent := m.totalSent, totalFailed := m.totalFailed + 1,
            lastFailed := some ⟨emailType, mail.«to», none, now⟩,
            deliveryRate := deliveryRateOf m.totalSent (m.totalFailed + 1) } := by
  have e1 := sendWithRetryLoop_stop mail emailType 0 baseDelay t1 rand now 0 none m []
    (by omega)
  have e2 := sendWithRetryLoop_stop mail emailType 0 baseDelay t2 rand now 0 none m []
    (by omega)
  unfold sendWithRetry
  rw [e1, e2]
  exact ⟨rfl, rfl, rfl⟩

/- ===== Claim theorems for the webhook route ===== -/

theorem jsOr_empty_right (a : String) : jsOr a "" = a := by
  unfold jsOr
  split <;> simp_all

/-- C4: a request with a missing signature header, or whose signature fails
verification, is rejected with HTTP 400 before any handler runs: no storage
call, no Stripe lookup and no mail dispatch happens (the state is
unchanged). -/
theorem post_rejects_unauthenticated (env : Env) (req : WebhookRequest) (st : St)
    (h : req.sigHeader = none
      ∨ ∃ s msg, req.sigHeader = some s
          ∧ env.constructEvent req.body s = Except.error msg) :
    (POST env req st).2.status = 400 ∧ (POST env req st).1 = st := by
  rcases h with h | ⟨s, msg, hs, hv⟩
  · unfold POST
    rw [h]
    exact ⟨rfl, rfl⟩
  · unfold POST
    rw [hs]
    simp only []
    rw [hv]
    exact ⟨rfl, rfl⟩

/-- Environment whose collaborators all reject, for concrete webhook
witnesses. -/
def envReject : Env :=
  ⟨fun _ _ => Except.error "bad", fun _ => Except.error "x", fun _ => Except.error "x",
   fun _ => Except.error "x", fun _ => Except.error "x", false, false, false, false⟩

/-- The empty request-processing state. -/
def st0 : St := ⟨[], [], []⟩

/-- Witness for C4: a request without a signature header. -/
theorem post_rejects_unauthenticated_witness :
    ((⟨"body", none⟩ : WebhookRequest).sigHeader = none
      ∨ ∃ s msg, (⟨"body", none⟩ : WebhookRequest).sigHeader = some s
          ∧ envReject.constructEvent "body" s = Except.error msg)
    ∧ (POST envReject ⟨"body", none⟩ st0).2.status = 400
    ∧ (POST envReject ⟨"body", none⟩ st0).1 = st0 := by
  refine ⟨Or.inl rfl, ?_⟩
  exact post_rejects_unauthenticated envReject ⟨"body", none⟩ st0 (Or.inl rfl)

/-- C5: an authenticated event whose type string is not one of the
enumerated handled types is acknowledged with a 200 received response and
invokes no handler: the state (effect log, database) is unchanged. -/
theorem post_acks_unknown_type (env : Env) (req : WebhookRequest) (st : St)
    (s : String) (ev : StripeEvent)
    (hs : req.sigHeader = some s)
    (hv : env.constructEvent req.body s = Except.ok ev)
    (hu : ev.type ∉ handledTypes) :
    (POST env req st).2 = okReceived ∧ (POST env req st).1 = st := by
  simp only [handledTypes, List.mem_cons, List.not_mem_nil, or_false, not_or] at hu
  obtain ⟨h1, h2, h3, h4, h5, h6, h7, h8, h9⟩ := hu
  unfold POST
  rw [hs]
  simp only []
  rw [hv]
  simp only []
  unfold dispatchEvent
  rw [if_neg h1, if_neg h2, if_neg h3, if_neg h4, if_neg h5, if_neg h6, if_neg h7,
    if_neg h8, if_neg h9]
  exact ⟨rfl, rfl⟩

/-- An event of a type the switch does not name. -/
def evUnknown : StripeEvent := ⟨"charge.refunded", .sub ⟨"", "", "", "", "", "", ""⟩⟩

/-- Environment that decodes every request to the unknown-type event. -/
def envUnknown : Env :=
  ⟨fun _ _ => Except.ok evUnknown, fun _ => Except.error "x", fun _ => Except.error "x",
   fun _ => Except.error "x", fun _ => Except.error "x", false, false, false, false⟩

/-- Witness for C5: a charge.refunded event is acknowledged untouched. -/
theorem post_acks_unknown_type_witness :
    ((⟨"body", some "sig"⟩ : WebhookRequest).sigHeader = some "sig"
      ∧ envUnknown.constructEvent "body" "sig" = Except.ok evUnknown
      ∧ evUnknown.type ∉ handledTypes)
    ∧ (POST envUnknown ⟨"body", some "sig"⟩ st0).2 = okReceived
    ∧ (POST envUnknown ⟨"body", some "sig"⟩ st0).1 = st0 := by
  refine ⟨⟨rfl, rfl, by decide⟩, ?_⟩
  exact post_acks_unknown_type envUnknown ⟨"body", some "sig"⟩ st0 "sig" evUnknown
    rfl rfl (by decide)

/-- C10: a payment_intent.succeeded event carrying a subscriptionId in its
metadata or a non-null invoice reference is acknowledged and entirely
skipped: no donor or donation write, no Stripe lookup and no mail dispatch
happens (the payment is deferred to the invoice.payment_succeeded path). -/
theorem paymentIntent_skips_subscription_payment (env : Env) (req : WebhookRequest)
    (st : St) (s : String) (p : PaymentIntentObj)
    (hs : req.sigHeader = some s)
    (hv : env.constructEvent req.body s
        = Except.ok ⟨"payment_intent.succeeded", .pi p⟩)
    (hskip : p.m_subscriptionId ≠ "" ∨ p.invoice ≠ "") :
    (POST env req st).2 = okReceived ∧ (POST env req st).1 = st := by
  unfold POST
  rw [hs]
  simp only []
  rw [hv]
  simp only []
  unfold dispatchEvent
  rw [if_pos rfl]
  simp only [handlePaymentIntentSucceeded, EventObject.asPaymentIntent]
  rw [if_pos hskip]
  exact ⟨rfl, rfl⟩

/-- A payment intent object whose metadata carries a subscriptionId. -/
def piSub : PaymentIntentObj :=
  ⟨"pi_1", "sub_9", "", "", "", "", "", "", "", 2500, "usd", 1700⟩

/-- Environment that decodes every request to a subscription-tagged
payment_intent.succeeded event. -/
def envPiSub : Env :=
  ⟨fun _ _ => Except.ok ⟨"payment_intent.succeeded", .pi piSub⟩,
   fun _ => Except.error "x", fun _ => Except.error "x",
   fun _ => Except.error "x", fun _ => Except.error "x", false, false, false, false⟩

/-- Witness for C10: a payment intent with metadata.subscriptionId set is
skipped. -/
theorem paymentIntent_skips_subscription_payment_witness :
    ((⟨"body", some "sig"⟩ : WebhookRequest).sigHeader = some "sig"
      ∧ envPiSub.constructEvent "body" "sig"
          = Except.ok ⟨"payment_intent.succeeded", .pi piSub⟩
      ∧ (piSub.m_subscriptionId ≠ "" ∨ piSub.invoice ≠ ""))
    ∧ (POST envPiSub ⟨"body", some "sig"⟩ st0).2 = okReceived
    ∧ (POST envPiSub ⟨"body", some "sig"⟩ st0).1 = st0 := by
  refine ⟨⟨rfl, rfl, Or.inl (by decide)⟩, ?_⟩
  exact paymentIntent_skips_subscription_payment envPiSub ⟨"body", some "sig"⟩ st0
    "sig" piSub rfl rfl (Or.inl (by decide))

theorem saveDonationRecord_ok (env : Env) (data : SaveData) (st : St)
    (hemail : data.email ≠ "") (hamt : data.amount ≠ 0)
    (h1 : env.donorFindFails = false) (h2 : env.donorUpdateFails = false)
    (h3 : env.donorCreateFails = false) (h4 : env.donationCreateFails = false) :
    (saveDonationRecord env data st).2
        = Except.ok
            ((match st.donors.find? (fun d => d.email = data.email) with
              | some d0 => updDonor d0 data
              | none => newDonor data), mkDonation data)
    ∧ (saveDonationRecord env data st).1.donations = st.donations ++ [mkDonation data]
    ∧ (saveDonationRecord env data st).1.donors
        = (match st.donors.find? (fun d => d.email = data.email) with
           | some d0 => updateDonorList st.donors data.email (updDonor d0 data)
           | none => st.donors ++ [newDonor data]) := by
  have hval : ¬(data.email = "" ∨ data.amount = 0) := by
    push_neg
    exact ⟨hemail, hamt⟩
  cases hfind : st.donors.find? (fun d => d.email = data.email) with
  | some d0 =>
    simp only [saveDonationRecord, logE, if_neg hval, h1, h2, h4, Bool.false_eq_true,
      if_false, hfind, afterDonorStep]
    refine ⟨?_, ?_, ?_⟩ <;> trivial
  | none =>
    simp only [saveDonationRecord, logE, if_neg hval, h1, h3, h4, Bool.false_eq_true,
      if_false, hfind, afterDonorStep]
    refine ⟨?_, ?_, ?_⟩ <;> trivial

theorem logE_donors (st : St) (e : Effect) : (logE st e).donors = st.donors := rfl

theorem logE_donations (st : St) (e : Effect) : (logE st e).donations = st.donations := rfl

theorem invoicePm_preserves (env : Env) (invoice : InvoiceObj) (st : St) :
    (invoicePm env invoice st).1.donors = st.donors
    ∧ (invoicePm env invoice st).1.donations = st.donations := by
  unfold invoicePm
  by_cases hpi : invoice.payment_intent ≠ ""
  · rw [if_pos hpi]
    cases env.retrievePaymentIntent invoice.payment_intent <;> exact ⟨rfl, rfl⟩
  · rw [if_neg hpi]
    exact ⟨rfl, rfl⟩

theorem invoiceFinish_status (env : Env) (invoice : InvoiceObj) (sub : SubscriptionObj)
    (email nm phone pm : String) (st : St) :
    (invoiceFinish env invoice sub email nm phone pm st).2 = Except.ok okReceived := by
  unfold invoiceFinish
  rcases hsave : saveDonationRecord env (invoiceData invoice sub email nm phone pm) st
    with ⟨st1, r⟩
  cases r <;> rfl

theorem invoiceFinish_ok (env : Env) (invoice : InvoiceObj) (sub : SubscriptionObj)
    (email nm phone pm : String) (st : St)
    (hemail : email ≠ "") (hamt : invoice.amount_paid / 100 ≠ 0)
    (h1 : env.donorFindFails = false) (h2 : env.donorUpdateFails = false)
    (h3 : env.donorCreateFails = false) (h4 : env.donationCreateFails = false) :
    (invoiceFinish env invoice sub email nm phone pm st).1.donations
        = st.donations ++ [mkDonation (invoiceData invoice sub email nm phone pm)]
    ∧ (invoiceFinish env invoice sub email nm phone pm st).1.donors
        = (match st.donors.find? (fun d => d.email = email) with
           | some d0 => updateDonorList st.donors email
               (updDonor d0 (invoiceData invoice sub email nm phone pm))
           | none => st.donors ++ [newDonor (invoiceData invoice sub email nm phone pm)]) := by
  obtain ⟨hres, hdon, hdor⟩ := saveDonationRecord_ok env
    (invoiceData invoice sub email nm phone pm) st hemail hamt h1 h2 h3 h4
  unfold invoiceFinish
  rcases hsave : saveDonationRecord env (invoiceData invoice sub email nm phone pm) st
    with ⟨st1, r⟩
  rw [hsave] at hres hdon hdor
  cases r with
  | error e => simp at hres
  | ok v => exact ⟨hdon, hdor⟩

theorem dispatch_invoicePS (env : Env) (obj : EventObject) (st : St) :
    dispatchEvent env ⟨"invoice.payment_succeeded", obj⟩ st
      = handleInvoicePaymentSucceeded env ⟨"invoice.payment_succeeded", obj⟩ st := rfl

theorem POST_eq_of_dispatch (env : Env) (req : WebhookRequest) (st : St) (s : String)
    (ev : StripeEvent) (r : Response)
    (hs : req.sigHeader = some s)
    (hv : env.constructEvent req.body s = Except.ok ev)
    (hr : (dispatchEvent env ev st).2 = Except.ok r) :
    POST env req st = ((dispatchEvent env ev st).1, r) := by
  unfold POST
  rw [hs]
  simp only []
  rw [hv]
  simp only []
  rcases hd : dispatchEvent env ev st with ⟨st2, r2⟩
  rw [hd] at hr
  cases r2 with
  | error e => simp at hr
  | ok rr =>
    have hrr : rr = r := by simpa using hr
    rw [hrr]

theorem handleInvoice_reduces (env : Env) (invoice : InvoiceObj) (sub : SubscriptionObj)
    (cust : CustomerObj) (st : St)
    (hsub : ¬ invoice.subscription = "")
    (hS : env.retrieveSubscription invoice.subscription = Except.ok sub)
    (hC : env.retrieveCustomer invoice.customer = Except.ok cust)
    (hdel : cust.deleted = false) :
    handleInvoicePaymentSucceeded env ⟨"invoice.payment_succeeded", .inv invoice⟩ st
      = invoiceFinish env invoice sub
          (jsOr invoice.customer_email cust.email)
          (jsOr cust.name (jsOr sub.m_donorName "Recurring Donor"))
          (jsOr cust.phone sub.m_donorPhone)
          (invoicePm env invoice (logE (logE st
            (Effect.retrieveSubscription invoice.subscription))
            (Effect.retrieveCustomer invoice.customer))).2
          (invoicePm env invoice (logE (logE st
            (Effect.retrieveSubscription invoice.subscription))
            (Effect.retrieveCustomer invoice.customer))).1 := by
  simp only [handleInvoicePaymentSucceeded, EventObject.asInvoice]
  rw [if_neg hsub]
  simp only [hS, hC]
  rw [if_pos hdel]
  rw [jsOr_empty_right]

theorem handleInvoice_reduces_deleted (env : Env) (invoice : InvoiceObj)
    (sub : SubscriptionObj) (cust : CustomerObj) (st : St)
    (hsub : ¬ invoice.subscription = "")
    (hS : env.retrieveSubscription invoice.subscription = Except.ok sub)
    (hC : env.retrieveCustomer invoice.customer = Except.ok cust)
    (hdel : ¬ cust.deleted = false)
    (hce : invoice.customer_email ≠ "") :
    handleInvoicePaymentSucceeded env ⟨"invoice.payment_succeeded", .inv invoice⟩ st
      = invoiceFinish env invoice sub invoice.customer_email "Recurring Donor" ""
          (invoicePm env invoice (logE (logE st
            (Effect.retrieveSubscription invoice.subscription))
            (Effect.retrieveCustomer invoice.customer))).2
          (invoicePm env invoice (logE (logE st
            (Effect.retrieveSubscription invoice.subscription))
            (Effect.retrieveCustomer invoice.customer))).1 := by
  simp only [handleInvoicePaymentSucceeded, EventObject.asInvoice]
  rw [if_neg hsub]
  simp only [hS, hC]
  rw [if_neg hdel, if_pos hce]

theorem handleInvoice_reduces_noemail (env : Env) (invoice : InvoiceObj)
    (sub : SubscriptionObj) (cust : CustomerObj) (st : St)
    (hsub : ¬ invoice.subscription = "")
    (hS : env.retrieveSubscription invoice.subscription = Except.ok sub)
    (hC : env.retrieveCustomer invoice.customer = Except.ok cust)
    (hdel : ¬ cust.deleted = false)
    (hce : ¬ invoice.customer_email ≠ "") :
    handleInvoicePaymentSucceeded env ⟨"invoice.payment_succeeded", .inv invoice⟩ st
      = (logE (logE st (Effect.retrieveSubscription invoice.subscription))
          (Effect.retrieveCustomer invoice.customer),
         Except.ok ⟨200, true, some "Missing email"⟩) := by
  simp only [handleInvoicePaymentSucceeded, EventObject.asInvoice]
  rw [if_neg hsub]
  simp only [hS, hC]
  rw [if_neg hdel, if_neg hce]

/-- The customer email the handler resolves for a recurring invoice: for a
live customer, invoice.customer_email falling back to the customer's email;
for a deleted customer stub, invoice.customer_email alone. -/
def resolvedEmail (invoice : InvoiceObj) (cust : CustomerObj) : String :=
  if cust.deleted = false then jsOr invoice.customer_email cust.email
  else invoice.customer_email

/-- The donor name the handler resolves: the customer's name, the
subscription metadata donorName, or the default, for a live customer; the
default alone for a deleted customer stub. -/
def resolvedName (cust : CustomerObj) (sub : SubscriptionObj) : String :=
  if cust.deleted = false then jsOr cust.name (jsOr sub.m_donorName "Recurring Donor")
  else "Recurring Donor"

/-- The donor phone the handler resolves: the customer's phone or the
subscription metadata donorPhone for a live customer; absent for a deleted
customer stub. -/
def resolvedPhone (cust : CustomerObj) (sub : SubscriptionObj) : String :=
  if cust.deleted = false then jsOr cust.phone sub.m_donorPhone
  else ""

theorem invoice_upsert_core (env : Env) (req : WebhookRequest) (st : St)
    (s : String) (invoice : InvoiceObj) (sub : SubscriptionObj)
    (email nm phone : String)
    (hs : req.sigHeader = some s)
    (hv : env.constructEvent req.body s
        = Except.ok ⟨"invoice.payment_succeeded", .inv invoice⟩)
    (hred : handleInvoicePaymentSucceeded env
        ⟨"invoice.payment_succeeded", .inv invoice⟩ st
      = invoiceFinish env invoice sub email nm phone
          (invoicePm env invoice (logE (logE st
            (Effect.retrieveSubscription invoice.subscription))
            (Effect.retrieveCustomer invoice.customer))).2
          (invoicePm env invoice (logE (logE st
            (Effect.retrieveSubscription invoice.subscription))
            (Effect.retrieveCustomer invoice.customer))).1)
    (hemail : email ≠ "")
    (hamt : invoice.amount_paid / 100 ≠ 0)
    (h1 : env.donorFindFails = false) (h2 : env.donorUpdateFails = false)
    (h3 : env.donorCreateFails = false) (h4 : env.donationCreateFails = false) :
    (POST env req st).2 = okReceived
    ∧ (∃ dn : DonationRecord,
        (POST env req st).1.donations = st.donations ++ [dn]
        ∧ dn.isRecurring = true
        ∧ dn.amount = invoice.amount_paid / 100
        ∧ dn.donorEmail = email
        ∧ dn.date = invoice.created * 1000)
    ∧ (match st.donors.find? (fun d => d.email = email) with
       | some d0 =>
           (POST env req st).1.donors
             = updateDonorList st.donors email
                 { d0 with
                   name := nm,
                   phone := phone,
                   totalDonations := some (d0.totalDonations.getD 0
                     + invoice.amount_paid / 100),
                   lastDonationDate := invoice.created * 1000,
                   donationFrequency := jsOr sub.m_frequency "monthly" }
       | none =>
           (POST env req st).1.donors
             = st.donors ++
                 [{ name := nm,
                    email := email,
                    phone := phone,
                    totalDonations := some (0 + invoice.amount_paid / 100),
                    lastDonationDate := invoice.created * 1000,
                    donationFrequency := jsOr sub.m_frequency "monthly" }]) := by
  have hdisp : dispatchEvent env ⟨"invoice.payment_succeeded", .inv invoice⟩ st
      = invoiceFinish env invoice sub email nm phone
          (invoicePm env invoice (logE (logE st
            (Effect.retrieveSubscription invoice.subscription))
            (Effect.retrieveCustomer invoice.customer))).2
          (invoicePm env invoice (logE (logE st
            (Effect.retrieveSubscription invoice.subscription))
            (Effect.retrieveCustomer invoice.customer))).1 :=
    (dispatch_invoicePS env (.inv invoice) st).trans hred
  obtain ⟨hpmDor, hpmDon⟩ := invoicePm_preserves env invoice (logE (logE st
    (Effect.retrieveSubscription invoice.subscription))
    (Effect.retrieveCustomer invoice.customer))
  obtain ⟨hdonF, hdorF⟩ := invoiceFinish_ok env invoice sub email nm phone
    ((invoicePm env invoice (logE (logE st
      (Effect.retrieveSubscription invoice.subscription))
      (Effect.retrieveCustomer invoice.customer))).2)
    ((invoicePm env invoice (logE (logE st
      (Effect.retrieveSubscription invoice.subscription))
      (Effect.retrieveCustomer invoice.customer))).1)
    hemail hamt h1 h2 h3 h4
  rw [hpmDor, logE_donors, logE_donors] at hdorF
  rw [hpmDon, logE_donations, logE_donations] at hdonF
  have hd2 : (dispatchEvent env ⟨"invoice.payment_succeeded", .inv invoice⟩ st).2
      = Except.ok okReceived := by
    rw [hdisp]
    exact invoiceFinish_status env invoice sub _ _ _ _ _
  have hPOST := POST_eq_of_dispatch env req st s ⟨"invoice.payment_succeeded", .inv invoice⟩
    okReceived hs hv hd2
  have hfst : (POST env req st).1
      = (invoiceFinish env invoice sub email nm phone
          (invoicePm env invoice (logE (logE st
            (Effect.retrieveSubscription invoice.subscription))
            (Effect.retrieveCustomer invoice.customer))).2
          (invoicePm env invoice (logE (logE st
            (Effect.retrieveSubscription invoice.subscription))
            (Effect.retrieveCustomer invoice.customer))).1).1 := by
    rw [hPOST, hdisp]
  refine ⟨by rw [hPOST], ?_, ?_⟩
  · refine ⟨mkDonation (invoiceData invoice sub email nm phone
      ((invoicePm env invoice (logE (logE st
        (Effect.retrieveSubscription invoice.subscription))
        (Effect.retrieveCustomer invoice.customer))).2)), ?_, rfl, rfl, rfl, rfl⟩
    rw [hfst, hdonF]
  · cases hfind : st.donors.find? (fun d => d.email = email) with
    | some d0 =>
      rw [hfind] at hdorF
      simp only [] at hdorF
      simp only []
      rw [hfst, hdorF]
      rfl
    | none =>
      rw [hfind] at hdorF
      simp only [] at hdorF
      simp only []
      rw [hfst, hdorF]
      rfl

/-- C6 (amended): a recurring invoice.payment_succeeded event carrying a
subscription, whose subscription and customer lookups succeed, whose
resolved customer email is nonempty and whose amount_paid is nonzero (the
handler validation otherwise rejects the write), updates an existing donor
with that email to lifetime total previousTotal + amount_paid / 100 (setting
the latest donation timestamp and frequency) and creates exactly one
donation record with isRecurring true; when no such donor exists, a new
donor is created instead. This covers both a live customer and a deleted
customer stub (where the email comes from the invoice and the name and
phone fall back to defaults). -/
theorem invoice_payment_upserts_donor (env : Env) (req : WebhookRequest) (st : St)
    (s : String) (invoice : InvoiceObj) (sub : SubscriptionObj) (cust : CustomerObj)
    (hs : req.sigHeader = some s)
    (hv : env.constructEvent req.body s
        = Except.ok ⟨"invoice.payment_succeeded", .inv invoice⟩)
    (hsub : ¬ invoice.subscription = "")
    (hS : env.retrieveSubscription invoice.subscription = Except.ok sub)
    (hC : env.retrieveCustomer invoice.customer = Except.ok cust)
    (hemail : resolvedEmail invoice cust ≠ "")
    (hamt : invoice.amount_paid / 100 ≠ 0)
    (h1 : env.donorFindFails = false) (h2 : env.donorUpdateFails = false)
    (h3 : env.donorCreateFails = false) (h4 : env.donationCreateFails = false) :
    (POST env req st).2 = okReceived
    ∧ (∃ dn : DonationRecord,
        (POST env req st).1.donations = st.donations ++ [dn]
        ∧ dn.isRecurring = true
        ∧ dn.amount = invoice.amount_paid / 100
        ∧ dn.donorEmail = resolvedEmail invoice cust
        ∧ dn.date = invoice.created * 1000)
    ∧ (match st.donors.find? (fun d => d.email = resolvedEmail invoice cust) with
       | some d0 =>
           (POST env req st).1.donors
             = updateDonorList st.donors (resolvedEmail invoice cust)
                 { d0 with
                   name := resolvedName cust sub,
                   phone := resolvedPhone cust sub,
                   totalDonations := some (d0.totalDonations.getD 0
                     + invoice.amount_paid / 100),
                   lastDonationDate := invoice.created * 1000,
                   donationFrequency := jsOr sub.m_frequency "monthly" }
       | none =>
           (POST env req st).1.donors
             = st.donors ++
                 [{ name := resolvedName cust sub,
                    email := resolvedEmail invoice cust,
                    phone := resolvedPhone cust sub,
                    totalDonations := some (0 + invoice.amount_paid / 100),
                    lastDonationDate := invoice.created * 1000,
                    donationFrequency := jsOr sub.m_frequency "monthly" }]) := by
  by_cases hdel : cust.deleted = false
  · have hemail2 : jsOr invoice.customer_email cust.email ≠ "" := by
      simp only [resolvedEmail, if_pos hdel] at hemail
      exact hemail
    have h := invoice_upsert_core env req st s invoice sub
      (jsOr invoice.customer_email cust.email)
      (jsOr cust.name (jsOr sub.m_donorName "Recurring Donor"))
      (jsOr cust.phone sub.m_donorPhone)
      hs hv (handleInvoice_reduces env invoice sub cust st hsub hS hC hdel)
      hemail2 hamt h1 h2 h3 h4
    simp only [resolvedEmail, resolvedName, resolvedPhone, if_pos hdel]
    exact h
  · have hce : invoice.customer_email ≠ "" := by
      simp only [resolvedEmail, if_neg hdel] at hemail
      exact hemail
    have h := invoice_upsert_core env req st s invoice sub
      invoice.customer_email "Recurring Donor" ""
      hs hv (handleInvoice_reduces_deleted env invoice sub cust st hsub hS hC hdel hce)
      hce hamt h1 h2 h3 h4
    simp only [resolvedEmail, resolvedName, resolvedPhone, if_neg hdel]
    exact h

/-- A subscription with empty metadata, for concrete webhook inputs. -/
def subW : SubscriptionObj := ⟨"sub_1", "active", "cus_1", "", "", "", ""⟩

/-- A live (non-deleted) customer. -/
def custW : CustomerObj := ⟨false, "don@example.org", "Don", ""⟩

/-- A recurring invoice for 25.00 currency units. -/
def invW : InvoiceObj :=
  ⟨"in_1", "sub_1", "cus_1", "don@example.org", 2500, 2500, "usd", "", "", none, "", 1700⟩

/-- An existing donor row for the invoice's email with lifetime total 10. -/
def donorW : DonorRecord := ⟨"Don", "don@example.org", "", some 10, 0, "monthly"⟩

/-- Environment for the C6 witness: decodes every request to the recurring
invoice event; lookups and database operations succeed. -/
def envUpsert : Env :=
  ⟨fun _ _ => Except.ok ⟨"invoice.payment_succeeded", .inv invW⟩,
   fun _ => Except.ok subW, fun _ => Except.ok custW,
   fun _ => Except.error "x", fun _ => Except.error "x", false, false, false, false⟩

/-- Initial state holding the existing donor. -/
def stDonor : St := ⟨[], [donorW], []⟩

/-- Witness for C6: a 25.00 recurring invoice for a known donor is
acknowledged and creates exactly one recurring donation record. -/
theorem invoice_payment_upserts_donor_witness :
    (¬ invW.subscription = "" ∧ resolvedEmail invW custW ≠ ""
      ∧ invW.amount_paid / 100 ≠ 0)
    ∧ (POST envUpsert ⟨"body", some "sig"⟩ stDonor).2 = okReceived
    ∧ (∃ dn : DonationRecord,
        (POST envUpsert ⟨"body", some "sig"⟩ stDonor).1.donations
            = stDonor.donations ++ [dn]
        ∧ dn.isRecurring = true
        ∧ dn.amount = invW.amount_paid / 100
        ∧ dn.donorEmail = resolvedEmail invW custW
        ∧ dn.date = invW.created * 1000) := by
  have h := invoice_payment_upserts_donor envUpsert ⟨"body", some "sig"⟩ stDonor "sig"
    invW subW custW rfl rfl (by decide) rfl rfl (by decide)
    (by norm_num [invW]) rfl rfl rfl rfl
  exact ⟨⟨by decide, by decide, by norm_num [invW]⟩, h.1, h.2.1⟩

/-- A zero-amount recurring invoice (e.g. a fully discounted billing
cycle). -/
def invZero : InvoiceObj :=
  ⟨"in_0", "sub_1", "cus_1", "don@example.org", 0, 0, "usd", "", "", none, "", 1700⟩

/-- Environment that decodes every request to the zero-amount recurring
invoice event; lookups and database operations succeed. -/
def envZero : Env :=
  ⟨fun _ _ => Except.ok ⟨"invoice.payment_succeeded", .inv invZero⟩,
   fun _ => Except.ok subW, fun _ => Except.ok custW,
   fun _ => Except.error "x", fun _ => Except.error "x", false, false, false, false⟩

/-- Counterexample to C6 as stated: a recurring invoice.payment_succeeded
event carrying a subscription, for a customer email whose donor already
exists, where the handler creates no donation record at all and leaves the
donor row untouched (saveDonationRecord rejects amount_paid 0 as missing
data), while still acknowledging the event. -/
theorem saveDonationRecord_invalid (env : Env) (data : SaveData) (st : St)
    (h : data.email = "" ∨ data.amount = 0) :
    saveDonationRecord env data st
      = (st, Except.error "Missing required donation data: email or amount") := by
  unfold saveDonationRecord
  rw [if_pos h]

theorem invoiceFinish_invalid (env : Env) (invoice : InvoiceObj) (sub : SubscriptionObj)
    (email nm phone pm : String) (st : St)
    (h : email = "" ∨ invoice.amount_paid / 100 = 0) :
    invoiceFinish env invoice sub email nm phone pm st = (st, Except.ok okReceived) := by
  unfold invoiceFinish
  rw [saveDonationRecord_invalid env (invoiceData invoice sub email nm phone pm) st h]

theorem zero_amount_invoice_writes_nothing :
    (POST envZero ⟨"body", some "sig"⟩ stDonor).2 = okReceived
    ∧ (POST envZero ⟨"body", some "sig"⟩ stDonor).1.donations = []
    ∧ (POST envZero ⟨"body", some "sig"⟩ stDonor).1.donors = [donorW]
    ∧ stDonor.donors.find?
        (fun d => d.email = jsOr invZero.customer_email custW.email) = some donorW := by
  have hred := handleInvoice_reduces envZero invZero subW custW stDonor
    (by decide) rfl rfl rfl
  have hz : invZero.amount_paid / 100 = 0 := by
    show (0 : ℚ) / 100 = 0
    simp
  have hfin := invoiceFinish_invalid envZero invZero subW
    (jsOr invZero.customer_email custW.email)
    (jsOr custW.name (jsOr subW.m_donorName "Recurring Donor"))
    (jsOr custW.phone subW.m_donorPhone)
    (invoicePm envZero invZero (logE (logE stDonor
      (Effect.retrieveSubscription invZero.subscription))
      (Effect.retrieveCustomer invZero.customer))).2
    (invoicePm envZero invZero (logE (logE stDonor
      (Effect.retrieveSubscription invZero.subscription))
      (Effect.retrieveCustomer invZero.customer))).1
    (Or.inr hz)
  have hdisp : dispatchEvent envZero ⟨"invoice.payment_succeeded", .inv invZero⟩ stDonor
      = ((invoicePm envZero invZero (logE (logE stDonor
          (Effect.retrieveSubscription invZero.subscription))
          (Effect.retrieveCustomer invZero.customer))).1, Except.ok okReceived) := by
    rw [dispatch_invoicePS, hred, hfin]
  have hPOST := POST_eq_of_dispatch envZero ⟨"body", some "sig"⟩ stDonor "sig"
    ⟨"invoice.payment_succeeded", .inv invZero⟩ okReceived rfl rfl (by rw [hdisp])
  obtain ⟨hpmDor, hpmDon⟩ := invoicePm_preserves envZero invZero (logE (logE stDonor
    (Effect.retrieveSubscription invZero.subscription))
    (Effect.retrieveCustomer invZero.customer))
  rw [hPOST, hdisp]
  refine ⟨rfl, ?_, ?_, rfl⟩
  · show (invoicePm envZero invZero (logE (logE stDonor
      (Effect.retrieveSubscription invZero.subscription))
      (Effect.retrieveCustomer invZero.customer))).1.donations = []
    rw [hpmDon, logE_donations, logE_donations]
    rfl
  · show (invoicePm envZero invZero (logE (logE stDonor
      (Effect.retrieveSubscription invZero.subscription))
      (Effect.retrieveCustomer invZero.customer))).1.donors = [donorW]
    rw [hpmDor, logE_donors, logE_donors]
    rfl

/-- C7 (amended): for an authenticated invoice.payment_succeeded event,
failures inside the handler's try blocks (a saveDonationRecord persistence
failure, the payment-method enrichment lookup, the mail dispatch) are caught
and the request still resolves with a received 200 acknowledgement, for any
database failure flags; but the initial subscription and customer lookups run
outside any try block, so their failure escapes the handler and the generic
top-level catch converts it into a 500 (as the counterexample shows). -/
theorem invoice_inner_failures_absorbed (env : Env) (req : WebhookRequest) (st : St)
    (s : String) (invoice : InvoiceObj)
    (hs : req.sigHeader = some s)
    (hv : env.constructEvent req.body s
        = Except.ok ⟨"invoice.payment_succeeded", .inv invoice⟩)
    (hok : invoice.subscription = ""
      ∨ ∃ sub cust, env.retrieveSubscription invoice.subscription = Except.ok sub
          ∧ env.retrieveCustomer invoice.customer = Except.ok cust) :
    (POST env req st).2.status = 200 ∧ (POST env req st).2.received = true := by
  by_cases hsubE : invoice.subscription = ""
  · have hdisp : dispatchEvent env ⟨"invoice.payment_succeeded", .inv invoice⟩ st
        = (st, Except.ok okReceived) := by
      rw [dispatch_invoicePS]
      simp only [handleInvoicePaymentSucceeded, EventObject.asInvoice]
      rw [if_pos hsubE]
    have hPOST := POST_eq_of_dispatch env req st s
      ⟨"invoice.payment_succeeded", .inv invoice⟩ okReceived hs hv (by rw [hdisp])
    rw [hPOST]
    exact ⟨rfl, rfl⟩
  · rcases hok with hempty | ⟨sub, cust, hS, hC⟩
    · exact absurd hempty hsubE
    · by_cases hdel : cust.deleted = false
      · have hred := handleInvoice_reduces env invoice sub cust st hsubE hS hC hdel
        have hd2 : (dispatchEvent env
            ⟨"invoice.payment_succeeded", .inv invoice⟩ st).2 = Except.ok okReceived := by
          rw [dispatch_invoicePS, hred]
          exact invoiceFinish_status env invoice sub _ _ _ _ _
        have hPOST := POST_eq_of_dispatch env req st s
          ⟨"invoice.payment_succeeded", .inv invoice⟩ okReceived hs hv hd2
        rw [hPOST]
        exact ⟨rfl, rfl⟩
      · by_cases hce : invoice.customer_email ≠ ""
        · have hred := handleInvoice_reduces_deleted env invoice sub cust st hsubE hS hC
            hdel hce
          have hd2 : (dispatchEvent env
              ⟨"invoice.payment_succeeded", .inv invoice⟩ st).2 = Except.ok okReceived := by
            rw [dispatch_invoicePS, hred]
            exact invoiceFinish_status env invoice sub _ _ _ _ _
          have hPOST := POST_eq_of_dispatch env req st s
            ⟨"invoice.payment_succeeded", .inv invoice⟩ okReceived hs hv hd2
          rw [hPOST]
          exact ⟨rfl, rfl⟩
        · have hred := handleInvoice_reduces_noemail env invoice sub cust st hsubE hS hC
            hdel hce
          have hd2 : (dispatchEvent env
              ⟨"invoice.payment_succeeded", .inv invoice⟩ st).2
              = Except.ok ⟨200, true, some "Missing email"⟩ := by
            rw [dispatch_invoicePS, hred]
          have hPOST := POST_eq_of_dispatch env req st s
            ⟨"invoice.payment_succeeded", .inv invoice⟩ ⟨200, true, some "Missing email"⟩
            hs hv hd2
          rw [hPOST]
          exact ⟨rfl, rfl⟩

/-- Environment where the Stripe customer lookup rejects while everything
else would succeed. -/
def envEnrichFail : Env :=
  ⟨fun _ _ => Except.ok ⟨"invoice.payment_succeeded", .inv invW⟩,
   fun _ => Except.ok subW, fun _ => Except.error "stripe down",
   fun _ => Except.error "x", fun _ => Except.error "x", false, false, false, false⟩

/-- Counterexample to C7 as stated: an enrichment failure (the customer
lookup) inside handleInvoicePaymentSucceeded is not caught there; the request
ends with a 500 rather than a received acknowledgement, even though the
effect log shows the handler had already issued both lookups. -/
theorem enrichment_failure_yields_500 :
    (POST envEnrichFail ⟨"body", some "sig"⟩ st0).2
        = ⟨500, false, some "Failed to process webhook"⟩
    ∧ (POST envEnrichFail ⟨"body", some "sig"⟩ st0).1.effects
        = [Effect.retrieveSubscription "sub_1", Effect.retrieveCustomer "cus_1"] := by
  exact ⟨rfl, rfl⟩

/-- Environment where decoding and lookups succeed but the donation insert
rejects (a persistence failure). -/
def envPersistFail : Env :=
  ⟨fun _ _ => Except.ok ⟨"invoice.payment_succeeded", .inv invW⟩,
   fun _ => Except.ok subW, fun _ => Except.ok custW,
   fun _ => Except.error "x", fun _ => Except.error "x", false, false, false, true⟩

/-- Witness for C7 (amended): a rejected donation insert is absorbed and the
request still resolves 200 received. -/
theorem invoice_inner_failures_absorbed_witness :
    (invW.subscription = ""
      ∨ ∃ sub cust, envPersistFail.retrieveSubscription invW.subscription = Except.ok sub
          ∧ envPersistFail.retrieveCustomer invW.customer = Except.ok cust)
    ∧ (POST envPersistFail ⟨"body", some "sig"⟩ st0).2.status = 200
    ∧ (POST envPersistFail ⟨"body", some "sig"⟩ st0).2.received = true := by
  refine ⟨Or.inr ⟨subW, custW, rfl, rfl⟩, ?_⟩
  exact invoice_inner_failures_absorbed envPersistFail ⟨"body", some "sig"⟩ st0 "sig" invW
    rfl rfl (Or.inr ⟨subW, custW, rfl, rfl⟩)

/-- Witness for C8: with baseDelay 1000 and a random draw of one half, the
wait after the second failed attempt is 1000 * 2 + 250, and the jitter 250
lies in the interval from 0 up to but excluding 500. -/
theorem sendWithRetry_backoff_witness :
    ((1 : Nat) ≤ 2 ∧ 2 < 3 ∧ (0 : ℚ) ≤ 1 / 2 ∧ (1 : ℚ) / 2 < 1)
    ∧ ((sendWithRetry ⟨"donor@example.org"⟩ "event-registration" 3 1000 transportAllFail
          (fun _ => 1 / 2) 7 emailMetrics).delays)[2 - 1]?
        = some (1000 * 2 ^ (2 - 1) + (1 / 2 : ℚ) * 500)
    ∧ (0 : ℚ) ≤ (1 / 2 : ℚ) * 500 ∧ (1 / 2 : ℚ) * 500 < 500 := by
  have h := sendWithRetry_backoff ⟨"donor@example.org"⟩ "event-registration" 3 1000
    transportAllFail (fun _ => 1 / 2) 7 emailMetrics 2 (by decide) (by decide)
    (fun i hi => rfl) (by norm_num) (by norm_num)
  exact ⟨⟨by decide, by decide, by norm_num, by norm_num⟩, h.1, h.2.1, h.2.2⟩
